import Mathlib

/-!
Verification of the tailwind-editor repository: a browser-side theme editor
(`Editor.vue`, `fetch-css.js`) talking to a tiny rendering service
(`tailwind-as-a-service.js`).  The definitions below are a shallow embedding
of the repository's own code; the external CSS generation pipeline
(tailwindcss/postcss) is abstracted as a function parameter, since the
repository treats it as an opaque collaborator.
-/

set_option autoImplicit false

/-- JSON-like values, the shape of request bodies and theme configurations. -/
inductive Json where
  | str : String → Json
  | num : Int → Json
  | obj : List (String × Json) → Json
  | arr : List Json → Json

/-- Field lookup on a JSON object (`none` on non-objects), mirroring property
access on a parsed JSON body. -/
def jsonLookup (j : Json) (k : String) : Option Json :=
  match j with
  | Json.obj fields => fields.lookup k
  | _ => none

/-- One entry of the `content` array handed to the generation pipeline:
`{ raw, extension }` in `tailwind-as-a-service.js`. -/
structure ContentEntry where
  raw : String
  extension : String

/-- The configuration object `tailwind-as-a-service.js` builds for the
generation pipeline: `{ content: [...], theme: req.body.theme }`. -/
structure TailwindConfig where
  content : List ContentEntry
  theme : Json

/-- Parsed body of a `POST /` request: `{ html, theme }`. -/
structure RequestBody where
  html : String
  theme : Json

/-- An HTTP response as the client sees it: a status code and a body text. -/
structure HttpResponse where
  status : Nat
  body : String
deriving DecidableEq

/-- The request `fetch-css.js` issues. -/
structure HttpRequest where
  url : String
  method : String
  headers : List (String × String)
  body : Json

/-- The fixed baseline stylesheet `defaultCss` of `tailwind-as-a-service.js`:
three ordered layer imports (base, components, utilities). -/
def defaultCss : String :=
  "\n  @import \x27tailwindcss/base\x27;\n  @import \x27tailwindcss/components\x27;\n  @import \x27tailwindcss/utilities\x27;\n"

/-- `postcss(plugins).process(css)` on the success path: the post-processing
chain applies each plugin in order to the stylesheet text. -/
def postcssProcess (plugins : List (String → String)) (css : String) : String :=
  plugins.foldl (fun acc p => p acc) css

/-- The `app.post` handler of `tailwind-as-a-service.js` on the success path,
with the tailwind pipeline abstracted as `tw` (a configured plugin is a
stylesheet transformer).  It builds the pipeline configuration from the
request body, runs the one-plugin postcss chain over `defaultCss`, and sends
the resulting text with the default 200 status. -/
def handlePost (tw : TailwindConfig → String → String) (reqBody : RequestBody) :
    HttpResponse :=
  let configuredTailwind := tw
    { content := [{ raw := reqBody.html, extension := "html" }]
      theme := reqBody.theme }
  let css := postcssProcess [configuredTailwind] defaultCss
  { status := 200, body := css }

/-- The server across a sequence of requests: `tailwind-as-a-service.js`
keeps no mutable state between requests (its module level holds only the
constants `app`, `port`, `defaultCss`), so a run is the pointwise handling
of each request. -/
def serverRun (tw : TailwindConfig → String → String)
    (reqs : List RequestBody) : List HttpResponse :=
  reqs.map (handlePost tw)

/-- The `app.post` handler with a fallible pipeline, modelling that
`postcssProcessor.process` may throw: the handler has no try/catch, so an
error propagates out of the handler and no response is produced. -/
def handlePostE (tw : TailwindConfig → String → Except String String)
    (reqBody : RequestBody) : Except String HttpResponse :=
  match tw { content := [{ raw := reqBody.html, extension := "html" }]
             theme := reqBody.theme } defaultCss with
  | Except.ok css => Except.ok { status := 200, body := css }
  | Except.error e => Except.error e

/-- A pipeline invocation that throws (e.g. on an invalid theme shape). -/
def throwingPipeline : TailwindConfig → String → Except String String :=
  fun _ _ => Except.error "invalid theme shape"

/-- The request built by `fetchCss` in `fetch-css.js`: a POST to the service
whose JSON body is `{ html: document.body.innerHTML, theme: { extend: cfg } }`
where `cfg` is the entire configuration object passed in. -/
def fetchCssRequest (html : String) (cfg : Json) : HttpRequest :=
  { url := "http://localhost:8080"
    method := "POST"
    headers := [("content-type", "application/json")]
    body := Json.obj
      [("html", Json.str html), ("theme", Json.obj [("extend", cfg)])] }

/-- Outcome of the network call: either the fetch promise rejects (network
error) or a response completes (with any status). -/
def FetchOutcome : Type := Except Unit HttpResponse

/-- What `fetchCss` resolves to: `fetch(...).then(response => response.text())`
returns the body text of any completed response, never inspecting
`response.ok` or `response.status`; a rejected fetch propagates. -/
def fetchCssResult (outcome : FetchOutcome) : Except Unit String :=
  match outcome with
  | Except.ok resp => Except.ok resp.body
  | Except.error e => Except.error e

/-- One render cycle of `Editor.vue`'s `getCss` over the stylesheet state:
`css.value = await fetchCss(...)` assigns the resolved text; if the awaited
promise rejects, the assignment never executes and the state is unchanged. -/
def renderCycle (st : String) (outcome : FetchOutcome) : String :=
  match fetchCssResult outcome with
  | Except.ok body => body
  | Except.error _ => st

/-- Whether `pat` occurs at the head of the character list. -/
def matchesAt : List Char → List Char → Bool
  | [], _ => true
  | _ :: _, [] => false
  | p :: ps, c :: cs => p == c && matchesAt ps cs

/-- Replace the first occurrence of `pat` by `rep` in a character list;
unchanged when `pat` does not occur. -/
def replaceFirstAux (pat rep : List Char) : List Char → List Char
  | [] => []
  | c :: rest =>
      if matchesAt pat (c :: rest) then rep ++ (c :: rest).drop pat.length
      else c :: replaceFirstAux pat rep rest

/-- JavaScript `String.prototype.replace` with a string pattern: only the
FIRST occurrence of `pat` is replaced by `rep`. -/
def jsReplace (s pat rep : String) : String :=
  String.mk (replaceFirstAux pat.data rep.data s.data)

/-- The `fontSize` category of `custom-tailwind-config.js`. -/
def customFontSize : List (String × String) :=
  [("button", "1rem"), ("size-title1", "2rem"), ("size-title2", "1.5rem"),
   ("size-title3", "1.25rem"), ("size-title4", "1.125rem")]

/-- The `fontWeight` category of `custom-tailwind-config.js`. -/
def customFontWeight : List (String × String) :=
  [("weight-button", "400"), ("weight-title1", "700"), ("weight-title2", "700"),
   ("weight-title3", "400"), ("weight-title4", "400")]

/-- JavaScript object property assignment `cfg[k] = v` on a category viewed as
an association list: overwrite the entry if present, add it otherwise. -/
def setEntry : List (String × String) → String → String → List (String × String)
  | [], k, v => [(k, v)]
  | p :: rest, k, v =>
      if p.1 == k then (k, v) :: rest else p :: setEntry rest k v

/-- The font-size display binding of `Editor.vue`:
`:value="editableCustomConfig.fontSize[sizeName].replace('rem','')"`. -/
def fontSizeDisplay (stored : String) : String :=
  jsReplace stored "rem" ""

/-- The font-size commit handler of `Editor.vue`:
`editableCustomConfig.fontSize[sizeName] = event.target.value + 'rem'`. -/
def fontSizeCommit (inputValue : String) : String :=
  inputValue ++ "rem"

/-- The `min` attribute declared on the font-weight input of `Editor.vue`. -/
def fontWeightInputMin : Nat := 100

/-- The `max` attribute declared on the font-weight input of `Editor.vue`. -/
def fontWeightInputMax : Nat := 900

/-- The font-weight commit of `Editor.vue`: `v-model` writes the input's
value into the configuration verbatim — no code path clamps or rejects it. -/
def fontWeightCommit (cfg : List (String × String)) (name inputValue : String) :
    List (String × String) :=
  setEntry cfg name inputValue

/-- A DOM element as far as the stylesheet bookkeeping is concerned: its
`id` attribute, its tag name and its text content (`innerHTML`). -/
structure Element where
  id : String
  tag : String
  content : String
deriving DecidableEq

/-- Whether an element carries the reserved identifier `css`. -/
def isCss (e : Element) : Bool := e.id == "css"

/-- The element `getStyleElement` creates when `getElementById` finds
nothing: `document.createElement('style')` with `styleElement.id = 'css'`. -/
def newStyleElement : Element := { id := "css", tag := "style", content := "" }

/-- The document after `getStyleElement` ran: if some element already has the
id `css` the document is untouched, otherwise a fresh style element with that
id is appended. -/
def getStyleElementDoc (doc : List Element) : List Element :=
  if doc.any isCss then doc else doc ++ [newStyleElement]

/-- `styleElement.innerHTML = text`: overwrite the content of the first
element whose id is `css` (the one `getElementById` returns). -/
def setCssContent : List Element → String → List Element
  | [], _ => []
  | e :: rest, text =>
      if isCss e then { e with content := text } :: rest
      else e :: setCssContent rest text

/-- One successful render of the legacy editor component:
`getStyleElement().innerHTML = <response text>`. -/
def renderStep (doc : List Element) (response : String) : List Element :=
  setCssContent (getStyleElementDoc doc) response

/-- N sequential successful renders applied to a document. -/
def renderSeq (doc : List Element) (responses : List String) : List Element :=
  responses.foldl renderStep doc

/-- How many elements of the document carry the id `css`. -/
def countCss (doc : List Element) : Nat := (doc.filter isCss).length

/- Theorems settling the claims follow. -/

/-- In a document with no `css` element, `List.any isCss` is false. -/
theorem any_isCss_of_countCss_zero (doc : List Element)
    (h : countCss doc = 0) : doc.any isCss = false := by
  induction doc with
  | nil => rfl
  | cons e rest ih =>
      rw [countCss, List.filter_cons] at h
      by_cases he : isCss e
      · simp [he] at h
      · simp only [he] at h
        simp [List.any_cons, he, ih h, countCss]

/-- Overwriting the css content in `doc ++ [e]`, where `doc` has no css
element and `e` is one, rewrites exactly `e`'s content. -/
theorem setCssContent_append (doc : List Element) (e : Element) (text : String)
    (hdoc : countCss doc = 0) (he : isCss e = true) :
    setCssContent (doc ++ [e]) text = doc ++ [{ e with content := text }] := by
  induction doc with
  | nil => simp [setCssContent, he]
  | cons d rest ih =>
      rw [countCss, List.filter_cons] at hdoc
      by_cases hd : isCss d
      · simp [hd] at hdoc
      · simp only [hd] at hdoc
        simp [setCssContent, hd, ih hdoc]

/-- A render against a document with no css element appends the style element
holding the response text. -/
theorem renderStep_absent (doc : List Element) (response : String)
    (h : countCss doc = 0) :
    renderStep doc response =
      doc ++ [{ id := "css", tag := "style", content := response }] := by
  rw [renderStep, getStyleElementDoc, any_isCss_of_countCss_zero doc h]
  simp only [Bool.false_eq_true, if_false]
  exact setCssContent_append doc newStyleElement response h rfl

/-- A render against a document whose unique css element is the style element
at the end overwrites that element's content in place. -/
theorem renderStep_present (doc : List Element) (c response : String)
    (h : countCss doc = 0) :
    renderStep (doc ++ [{ id := "css", tag := "style", content := c }]) response =
      doc ++ [{ id := "css", tag := "style", content := response }] := by
  rw [renderStep, getStyleElementDoc]
  have hany : (doc ++ [({ id := "css", tag := "style", content := c } : Element)]).any isCss = true := by
    simp [List.any_append, isCss]
  rw [hany]
  simp only [if_true]
  exact setCssContent_append doc _ response h rfl

/-- Folding further renders from a document ending in the style element keeps
that single element, with content the last response (or the current one when
no response follows). -/
theorem renderSeq_from_style (doc : List Element) (h : countCss doc = 0) :
    ∀ (responses : List String) (c : String),
      renderSeq (doc ++ [{ id := "css", tag := "style", content := c }]) responses =
        doc ++ [{ id := "css", tag := "style", content := responses.getLast?.getD c }] := by
  intro responses
  induction responses with
  | nil => intro c; rfl
  | cons r rest ih =>
      intro c
      have hstep := renderStep_present doc c r h
      calc renderSeq (doc ++ [{ id := "css", tag := "style", content := c }]) (r :: rest)
          = renderSeq (renderStep (doc ++ [{ id := "css", tag := "style", content := c }]) r) rest := rfl
        _ = renderSeq (doc ++ [{ id := "css", tag := "style", content := r }]) rest := by rw [hstep]
        _ = doc ++ [{ id := "css", tag := "style", content := rest.getLast?.getD r }] := ih r
        _ = doc ++ [{ id := "css", tag := "style", content := (r :: rest).getLast?.getD c }] := by
              cases rest with
              | nil => rfl
              | cons r2 rest2 =>
                  have hsome : (r2 :: rest2).getLast?.isSome := by
                    rw [List.getLast?_isSome]
                    exact List.cons_ne_nil r2 rest2
                  obtain ⟨x, hx⟩ := Option.isSome_iff_exists.mp hsome
                  rw [List.getLast?_cons_cons, hx]
                  rfl

/-- C3: starting from a document with no element of id `css`, after any
nonempty sequence of successful renders the document is the original one plus
exactly one style element with id `css`, whose content is the last response;
in particular exactly one css element exists. -/
theorem single_stylesheet_invariant (doc : List Element) (responses : List String)
    (c : String) (h0 : countCss doc = 0) (hlast : responses.getLast? = some c) :
    renderSeq doc responses =
      doc ++ [{ id := "css", tag := "style", content := c }] ∧
    countCss (renderSeq doc responses) = 1 := by
  cases responses with
  | nil => simp at hlast
  | cons r rest =>
      have hfirst : renderSeq doc (r :: rest) =
          renderSeq (doc ++ [{ id := "css", tag := "style", content := r }]) rest := by
        show renderSeq (renderStep doc r) rest = _
        rw [renderStep_absent doc r h0]
      have hrest := renderSeq_from_style doc h0 rest r
      have hc : rest.getLast?.getD r = c := by
        cases rest with
        | nil => simpa using hlast
        | cons r2 rest2 =>
            rw [List.getLast?_cons_cons] at hlast
            rw [hlast]
            rfl
      have heq : renderSeq doc (r :: rest) =
          doc ++ [{ id := "css", tag := "style", content := c }] := by
        rw [hfirst, hrest, hc]
      refine ⟨heq, ?_⟩
      rw [heq, countCss, List.filter_append]
      simp only [List.length_append]
      rw [countCss] at h0
      rw [h0]
      rfl

/-- Witness for C3: from an empty document, two renders with responses
`"a"` then `"b"` leave exactly one css style element, holding `"b"`. -/
theorem single_stylesheet_invariant_witness :
    renderSeq [] ["a", "b"] = [{ id := "css", tag := "style", content := "b" }] ∧
    countCss (renderSeq [] ["a", "b"]) = 1 := by
  have h := single_stylesheet_invariant [] ["a", "b"] "b" (by decide) (by decide)
  simpa using h

/-- C1: every `POST /` request is answered by running exactly the one
configured generation plugin over the fixed three-import baseline stylesheet,
with content the singleton `[{ raw: html, extension: "html" }]` and theme the
request's theme field, and the resulting CSS text is sent verbatim with a
success status. -/
theorem handlePost_spec (tw : TailwindConfig → String → String)
    (reqBody : RequestBody) :
    handlePost tw reqBody =
      { status := 200
        body := tw
          { content := [{ raw := reqBody.html, extension := "html" }]
            theme := reqBody.theme } defaultCss } := by
  rfl

/-- C2: the client's render request is a POST whose JSON body is exactly
`{ html, theme: { extend: cfg } }` — the whole configuration object is
nested under the `extend` key, not a diff. -/
theorem fetchCssRequest_spec (html : String) (cfg : Json) :
    (fetchCssRequest html cfg).method = "POST" ∧
    (fetchCssRequest html cfg).body =
      Json.obj [("html", Json.str html), ("theme", Json.obj [("extend", cfg)])] ∧
    jsonLookup (fetchCssRequest html cfg).body "html" = some (Json.str html) ∧
    (jsonLookup (fetchCssRequest html cfg).body "theme").bind
      (fun t => jsonLookup t "extend") = some cfg := by
  refine ⟨rfl, rfl, ?_, ?_⟩ <;>
    simp [fetchCssRequest, jsonLookup, List.lookup]

/-- C9: `fetchCss` resolves with the response body text for every completed
response, whatever its status code — a 4xx/5xx error body is returned to the
caller exactly as if it were CSS. -/
theorem fetchCssResult_ignores_status (resp : HttpResponse) :
    fetchCssResult (Except.ok resp) = Except.ok resp.body := by
  rfl

/-- C4: font-size round trip — the stored value `"1.25rem"` is displayed as
`"1.25"` (unit suffix stripped), and committing the input value `"1.5"`
writes `"1.5rem"` back into the configuration. -/
theorem fontSize_round_trip :
    fontSizeDisplay "1.25rem" = "1.25" ∧
    fontSizeCommit "1.5" = "1.5rem" ∧
    List.lookup "size-title3"
      (setEntry customFontSize "size-title3" (fontSizeCommit "1.5")) =
        some "1.5rem" := by
  refine ⟨?_, rfl, ?_⟩ <;> decide

/-- C5 (code evaluated at the failing inputs): the font-weight input declares
`min="100"` and `max="900"`, but the commit path writes the input value into
the configuration verbatim — both out-of-bound inputs `50` and `1000` land in
the configuration unchanged, so they reach the next render request. -/
theorem fontWeight_commit_unclamped :
    List.lookup "weight-button"
      (fontWeightCommit customFontWeight "weight-button" "1000") = some "1000" ∧
    List.lookup "weight-button"
      (fontWeightCommit customFontWeight "weight-button" "50") = some "50" ∧
    fontWeightInputMax < 1000 ∧ 50 < fontWeightInputMin := by
  refine ⟨?_, ?_, ?_, ?_⟩ <;> decide

/-- C10: the font-size commit handler appends `"rem"` to whatever string the
input holds, with no numeric validation; committing an empty input writes the
non-numeric value `"rem"` into the configuration. -/
theorem fontSizeCommit_appends_rem :
    (∀ s : String, fontSizeCommit s = s ++ "rem") ∧
    fontSizeCommit "" = "rem" ∧
    List.lookup "size-title1"
      (setEntry customFontSize "size-title1" (fontSizeCommit "")) =
        some "rem" := by
  refine ⟨fun s => rfl, rfl, ?_⟩
  decide

/-- C6 (code evaluated at the failing input): when the pipeline throws, the
handler — which has no try/catch — produces no response at all: the error
escapes the handler instead of being turned into a server-error response. -/
theorem handlePost_pipeline_throw_no_response :
    handlePostE throwingPipeline { html := "<p></p>", theme := Json.num 42 } =
      Except.error "invalid theme shape" := by
  rfl

/-- C7 counterexample: a completed non-success response does NOT leave the
previous stylesheet content in place — its body text replaces the content.
With previous content `"old"` and a 500 response whose body is
`"Internal Server Error"`, the state after the cycle is the error body. -/
theorem renderCycle_replaces_on_error_response :
    renderCycle "old" (Except.ok { status := 500, body := "Internal Server Error" }) =
      "Internal Server Error" ∧
    renderCycle "old" (Except.ok { status := 500, body := "Internal Server Error" }) ≠
      "old" := by
  refine ⟨rfl, ?_⟩
  decide

/-- C7 amended: on a network error (the fetch promise rejects) the previous
stylesheet content is left in place; but any completed response — success or
not — has its body text applied to the stylesheet regardless of status. -/
theorem renderCycle_failure_behavior :
    (∀ st : String, renderCycle st (Except.error ()) = st) ∧
    (∀ (st : String) (resp : HttpResponse),
      renderCycle st (Except.ok resp) = resp.body) := by
  exact ⟨fun st => rfl, fun st resp => rfl⟩

/-- C8: the rendering service is stateless and deterministic across calls —
in a run, the response at position `i` depends only on the request at
position `i` (two runs agreeing there respond identically there), and two
positions holding identical request bodies receive identical responses. -/
theorem serverRun_stateless (tw : TailwindConfig → String → String) :
    (∀ (reqs₁ reqs₂ : List RequestBody) (i : Nat),
      reqs₁[i]? = reqs₂[i]? →
      (serverRun tw reqs₁)[i]? = (serverRun tw reqs₂)[i]?) ∧
    (∀ (reqs : List RequestBody) (i j : Nat) (b : RequestBody),
      reqs[i]? = some b → reqs[j]? = some b →
      (serverRun tw reqs)[i]? = (serverRun tw reqs)[j]?) := by
  constructor
  · intro reqs₁ reqs₂ i h
    simp [serverRun, List.getElem?_map, h]
  · intro reqs i j b hi hj
    simp [serverRun, List.getElem?_map, hi, hj]

/-- Witness for C8 at concrete runs: two request lists agreeing at position 0
and a single list holding the same body at positions 0 and 1. -/
theorem serverRun_stateless_witness :
    (serverRun (fun _ css => css)
        [{ html := "<p></p>", theme := Json.obj [] },
         { html := "<a></a>", theme := Json.obj [] }])[0]? =
      (serverRun (fun _ css => css)
        [{ html := "<p></p>", theme := Json.obj [] },
         { html := "<b></b>", theme := Json.obj [] }])[0]? ∧
    (serverRun (fun _ css => css)
        [{ html := "<p></p>", theme := Json.obj [] },
         { html := "<p></p>", theme := Json.obj [] }])[0]? =
      (serverRun (fun _ css => css)
        [{ html := "<p></p>", theme := Json.obj [] },
         { html := "<p></p>", theme := Json.obj [] }])[1]? := by
  constructor
  · exact (serverRun_stateless (fun _ css => css)).1
      [{ html := "<p></p>", theme := Json.obj [] },
       { html := "<a></a>", theme := Json.obj [] }]
      [{ html := "<p></p>", theme := Json.obj [] },
       { html := "<b></b>", theme := Json.obj [] }] 0 rfl
  · exact (serverRun_stateless (fun _ css => css)).2
      [{ html := "<p></p>", theme := Json.obj [] },
       { html := "<p></p>", theme := Json.obj [] }] 0 1
      { html := "<p></p>", theme := Json.obj [] } rfl rfl
